import Mathlib

/-
Verification of the Sussuros peer connection lifecycle manager
(src/SussurosClass.js and src/utils/hooks.js).

The JavaScript class keeps five Map tables keyed by remote user id
(peers, audioElements, remoteStreams, localStreams, talkieButtons) plus
saved always-on-channel flags.  We embed this state shallowly:

- tables become association lists keyed by String;
- mutable JS objects (MediaStreamTrack, SimplePeer) become entries of
  Nat-keyed heaps, so that mutation (track.stop(), peer.destroy()) of an
  object shared between a table entry and a local variable is visible
  everywhere, as in JS;
- game.socket.emit becomes an outbox list of messages, in emission order;
- the always-on AV channel (game.webrtc) becomes two boolean fields
  (avMuted, avBroadcasting) of the state;
- module settings and the static shape of the AV client become a
  read-only Env record;
- a JS TypeError escaping a method (for example calling removeClass on
  an undefined button) is modelled by Except: .error carries the state
  as mutated up to the throw point.
-/

-- ===== association-list tables (JS Map keyed by user id) =====

def mapGet {α : Type} (m : List (String × α)) (k : String) : Option α :=
  match m with
  | [] => none
  | (k', v) :: rest => if k' == k then some v else mapGet rest k

def mapHas {α : Type} (m : List (String × α)) (k : String) : Bool :=
  (mapGet m k).isSome

/-- JS Map.set: replace in place when the key exists (keeping insertion
order), otherwise append at the end. -/
def mapSet {α : Type} (m : List (String × α)) (k : String) (v : α) : List (String × α) :=
  match m with
  | [] => [(k, v)]
  | (k', w) :: rest => if k' == k then (k, v) :: rest else (k', w) :: mapSet rest k v

def mapDelete {α : Type} (m : List (String × α)) (k : String) : List (String × α) :=
  m.filter (fun p => p.1 != k)

-- ===== Nat-keyed heaps for mutable JS objects =====

def heapGet {α : Type} (h : List (Nat × α)) (i : Nat) : Option α :=
  match h with
  | [] => none
  | (j, v) :: rest => if j == i then some v else heapGet rest i

def heapSet {α : Type} (h : List (Nat × α)) (i : Nat) (v : α) : List (Nat × α) :=
  match h with
  | [] => [(i, v)]
  | (j, w) :: rest => if j == i then (i, v) :: rest else (j, w) :: heapSet rest i v

-- ===== data model =====

/-- One MediaStreamTrack object: the enabled flag toggled by
enableLocalStream and the stopped flag set by track.stop(). -/
structure Track where
  enabled : Bool
  stopped : Bool
deriving DecidableEq, Repr

/-- A MediaStream: a bag of track object ids into the track heap. -/
structure MediaStream where
  tracks : List Nat
deriving DecidableEq, Repr

/-- One SimplePeer transport handle.  signaled records payloads forwarded
into the transport, sent records data-channel sends, attached records
streams passed to addStream. -/
structure Peer where
  initiator : Bool
  connected : Bool
  destroyed : Bool
  signaled : List Nat
  sent : List Nat
  attached : List MediaStream
deriving DecidableEq, Repr

/-- A message emitted on the module socket namespace.  The userId field is
the recipient filter, exactly as in the source. -/
inductive SocketMsg where
  | peerSignal (userId : String) (data : Nat)
  | peerClose (userId : String)
  | peerBroadcasting (userId : String) (broadcasting : Bool)
deriving DecidableEq, Repr

/-- The mutable state of the Sussuros class instance, together with the
mutable parts of its environment (socket outbox, AV channel flags). -/
structure Sussuros where
  peers : List (String × Nat)
  peerHeap : List (Nat × Peer)
  nextPeerId : Nat
  audioElements : List (String × Nat)
  remoteStreams : List (String × MediaStream)
  localStreams : List (String × MediaStream)
  trackHeap : List (Nat × Track)
  talkieButtons : List (String × List String)
  savedAvEnabledState : Bool
  savedMutedFlag : Option Bool
  savedBroadcasting : Option Bool
  avMuted : Bool
  avBroadcasting : Bool
  outbox : List SocketMsg
deriving DecidableEq, Repr

/-- Read-only configuration: module settings and the static shape of the
AV client (which optional members it exposes). -/
structure Env where
  disableAvClient : Bool
  toggleBroadcast : Bool
  avClientPresent : Bool
  isVoiceAlways : Bool
  exposesBroadcasting : Bool
  hasToggleBroadcast : Bool
  localUserId : String
deriving DecidableEq, Repr

-- ===== small object helpers =====

/-- Stop every track of the given stream: track.stop() on each member. -/
def stopAll (h : List (Nat × Track)) (tids : List Nat) : List (Nat × Track) :=
  h.map (fun p => (p.1, if tids.contains p.1 then { p.2 with stopped := true } else p.2))

/-- Set the enabled flag on every track of the given stream. -/
def setEnabledAll (h : List (Nat × Track)) (tids : List Nat) (e : Bool) : List (Nat × Track) :=
  h.map (fun p => (p.1, if tids.contains p.1 then { p.2 with enabled := e } else p.2))

/-- peer.destroy(): mark the transport handle destroyed. -/
def destroyPeer (h : List (Nat × Peer)) (pid : Nat) : List (Nat × Peer) :=
  h.map (fun p => (p.1, if p.1 == pid then { p.2 with destroyed := true } else p.2))

/-- jQuery addClass: classes are a set, adding an existing class is a no-op. -/
def addClass (cs : List String) (c : String) : List String :=
  if cs.contains c then cs else cs ++ [c]

/-- jQuery removeClass. -/
def removeClass (cs : List String) (c : String) : List String :=
  cs.filter (fun x => x != c)

-- ===== operations of the Sussuros class =====

/-- setupPeer (SussurosClass.js lines 40-98): allocate a fresh SimplePeer
handle for userId and store it in the peers table, overwriting any
existing entry, exactly as this.peers.set does.  Callback registration
and ui.players.render() have no effect on the embedded state; the
callbacks themselves are modelled as the event functions below. -/
def setupPeer (s : Sussuros) (userId : String) (isInitiator : Bool) : Sussuros :=
  { s with
    peers := mapSet s.peers userId s.nextPeerId,
    peerHeap := heapSet s.peerHeap s.nextPeerId
      { initiator := isInitiator, connected := false, destroyed := false,
        signaled := [], sent := [], attached := [] },
    nextPeerId := s.nextPeerId + 1 }

/-- initPeer (lines 120-126): create an initiator connection unless a
peer exists whose transport reports connected; in that case only a
warning is logged. -/
def initPeer (s : Sussuros) (userId : String) : Sussuros :=
  let existingConnected : Bool :=
    match mapGet s.peers userId with
    | none => false
    | some pid =>
      match heapGet s.peerHeap pid with
      | none => false
      | some p => p.connected
  if !existingConnected then setupPeer s userId true else s

/-- signal (lines 107-112): create a responder peer when none exists,
then forward the payload into the transport handle. -/
def signal (s : Sussuros) (userId : String) (data : Nat) : Sussuros :=
  let s := if !(mapHas s.peers userId) then setupPeer s userId false else s
  match mapGet s.peers userId with
  | none => s
  | some pid =>
    match heapGet s.peerHeap pid with
    | none => s
    | some p => { s with peerHeap := heapSet s.peerHeap pid { p with signaled := p.signaled ++ [data] } }

/-- Mirrors the JS guard of send: this.peers.has(userId) and
this.peers.get(userId).connected. -/
def peerConnected (s : Sussuros) (userId : String) : Bool :=
  match mapGet s.peers userId with
  | none => false
  | some pid =>
    match heapGet s.peerHeap pid with
    | none => false
    | some p => p.connected

/-- send (lines 134-138): transmit over the data channel only when a
peer exists and its transport reports connected; otherwise do nothing. -/
def send (s : Sussuros) (userId : String) (data : Nat) : Sussuros :=
  if peerConnected s userId then
    match mapGet s.peers userId with
    | none => s
    | some pid =>
      match heapGet s.peerHeap pid with
      | none => s
      | some p => { s with peerHeap := heapSet s.peerHeap pid { p with sent := p.sent ++ [data] } }
  else s

/-- closePeer (lines 146-183), mirroring the statement order of the
source.  The three this.talkieButtons.get(userId) accesses throw a
TypeError when no button exists for userId; this is the .error case,
carrying the state as mutated up to the throw. -/
def closePeer (s : Sussuros) (userId : String) : Except Sussuros Sussuros :=
  let s1 := { s with audioElements := mapDelete s.audioElements userId }
  let s2 :=
    match mapGet s1.remoteStreams userId with
    | some st => { s1 with trackHeap := stopAll s1.trackHeap st.tracks }
    | none => s1
  let s3 := { s2 with remoteStreams := mapDelete s2.remoteStreams userId }
  let s4 :=
    match mapGet s3.localStreams userId with
    | some st => { s3 with trackHeap := stopAll s3.trackHeap st.tracks }
    | none => s3
  match mapGet s4.talkieButtons userId with
  | none => .error s4
  | some b =>
    let b := removeClass b "sussuros-stream-broadcasting"
    let b := removeClass b "sussuros-stream-connected"
    let s5 := { s4 with talkieButtons := mapSet s4.talkieButtons userId b }
    let s6 := { s5 with localStreams := mapDelete s5.localStreams userId }
    let s7 :=
      match mapGet s6.peers userId with
      | some pid => { s6 with peerHeap := destroyPeer s6.peerHeap pid }
      | none => s6
    match mapGet s7.talkieButtons userId with
    | none => .error s7
    | some b2 =>
      let b2 := removeClass b2 "sussuros-peer-connected"
      .ok { s7 with
            talkieButtons := mapSet s7.talkieButtons userId b2,
            peers := mapDelete s7.peers userId }

/-- isLocalStreamEnabled (lines 192-198): true when some cached outbound
track has enabled set. -/
def isLocalStreamEnabled (s : Sussuros) (userId : String) : Bool :=
  match mapGet s.localStreams userId with
  | none => false
  | some st =>
    st.tracks.any (fun tid =>
      match heapGet s.trackHeap tid with
      | some t => t.enabled
      | none => false)

/-- The private helper _disableAvClient (lines 526-614).  The disable
argument means: we are currently broadcasting through Sussuros.  Inside
the voice-always branch the saved flags are written or restored and the
optional toggleBroadcast method of the AV client is invoked; otherwise
the per-user muted flag is flipped. -/
def disableAvClient (env : Env) (s : Sussuros) (disable : Bool) : Sussuros :=
  if !env.disableAvClient || env.toggleBroadcast then s
  else if env.avClientPresent && env.isVoiceAlways then
    if disable then
      let savedMuted := s.avMuted
      let savedBc := if env.exposesBroadcasting then s.avBroadcasting else !savedMuted
      let s := { s with savedMutedFlag := some savedMuted, savedBroadcasting := some savedBc }
      if env.hasToggleBroadcast then { s with avBroadcasting := false } else s
    else
      let s :=
        match s.savedBroadcasting with
        | some b => if env.hasToggleBroadcast then { s with avBroadcasting := b } else s
        | none =>
          -- JS: savedMutedFlag ? false : true, with undefined falsy
          let shouldBroadcast :=
            match s.savedMutedFlag with
            | some m => !m
            | none => true
          if env.hasToggleBroadcast then { s with avBroadcasting := shouldBroadcast } else s
      { s with savedMutedFlag := none, savedBroadcasting := none }
  else
    let isAudioEnabled := !s.avMuted
    if disable then
      let s := { s with savedAvEnabledState := isAudioEnabled }
      if isAudioEnabled then { s with avMuted := true } else s
    else if s.savedAvEnabledState != isAudioEnabled then
      { s with avMuted := !s.savedAvEnabledState }
    else s

/-- enableLocalStream (lines 209-247).  Early return when the peer or the
cached stream is missing (with only a warning when a peer exists and
enable was requested); otherwise flip the track flags when a change is
needed, emit a peer-broadcasting message, synchronise the AV client, and
update the button highlight.  The final talkieButtons.get(userId) access
throws when no button exists. -/
def enableLocalStream (env : Env) (s : Sussuros) (userId : String) (enable : Bool) :
    Except Sussuros Sussuros :=
  if !(mapHas s.peers userId) || !(mapHas s.localStreams userId) then .ok s
  else
    let s :=
      if isLocalStreamEnabled s userId != enable then
        let tids := match mapGet s.localStreams userId with
          | some st => st.tracks
          | none => []
        let s := { s with trackHeap := setEnabledAll s.trackHeap tids enable }
        let s := { s with outbox := s.outbox ++ [SocketMsg.peerBroadcasting userId enable] }
        disableAvClient env s enable
      else s
    match mapGet s.talkieButtons userId with
    | none => .error s
    | some b =>
      let b := if enable then addClass b "sussuros-stream-broadcasting"
               else removeClass b "sussuros-stream-broadcasting"
      .ok { s with talkieButtons := mapSet s.talkieButtons userId b }

/-- toggleLocalStream (lines 254-256). -/
def toggleLocalStream (env : Env) (s : Sussuros) (userId : String) : Except Sussuros Sussuros :=
  enableLocalStream env s userId (!(isLocalStreamEnabled s userId))

/-- The loop body of closeAllPeers: for each table entry, emit a
peer-close message addressed to that participant, then close locally.
An exception thrown by closePeer propagates out of the forEach. -/
def closeAllLoop (s : Sussuros) : List (String × Nat) → Except Sussuros Sussuros
  | [] => .ok s
  | (userId, _) :: rest =>
    let s := { s with outbox := s.outbox ++ [SocketMsg.peerClose userId] }
    match closePeer s userId with
    | .error e => .error e
    | .ok s' => closeAllLoop s' rest

/-- closeAllPeers (lines 262-275): iterate over the peers table. -/
def closeAllPeers (s : Sussuros) : Except Sussuros Sussuros :=
  closeAllLoop s s.peers

/-- _onRtcSettingsChanged (lines 624-635).  The argument is the list of
flattened changed-settings keys. -/
def onRtcSettingsChanged (s : Sussuros) (changedKeys : List String) : Except Sussuros Sussuros :=
  if changedKeys.any (fun k => k == "client.audioSink" || k == "client.audioSrc") then
    closeAllPeers s
  else .ok s

/-- _remoteBroadcasting (lines 400-410): colour the button of a remote
talker.  Throws when no button exists for userId. -/
def remoteBroadcasting (s : Sussuros) (userId : String) (broadcasting : Bool) :
    Except Sussuros Sussuros :=
  match mapGet s.talkieButtons userId with
  | none => .error s
  | some b =>
    let b := if broadcasting then addClass b "sussuros-stream-receiving"
             else removeClass b "sussuros-stream-receiving"
    .ok { s with talkieButtons := mapSet s.talkieButtons userId b }

/-- The resolution callback of the getUserMedia promise inside
_createUserAudio (lines 481-494): cache the captured stream, attach it to
the peer, remember the AV enabled state, disable the outbound tracks, and
mark the button.  The captured stream arrives with fresh live tracks
(enabled, not stopped) inserted at the given ids.  A throw inside this
callback is caught by the .catch of the promise chain and only logged, so
.error here means: the remaining statements were skipped. -/
def createUserAudioResolve (env : Env) (s : Sussuros) (userId : String) (tids : List Nat) :
    Except Sussuros Sussuros :=
  let s := { s with trackHeap := tids.foldl (fun h tid => heapSet h tid { enabled := true, stopped := false }) s.trackHeap }
  let stream : MediaStream := { tracks := tids }
  let s := { s with localStreams := mapSet s.localStreams userId stream }
  match mapGet s.peers userId with
  | none => .error s
  | some pid =>
    match heapGet s.peerHeap pid with
    | none => .error s
    | some p =>
      let s := { s with peerHeap := heapSet s.peerHeap pid { p with attached := p.attached ++ [stream] } }
      let s := { s with savedAvEnabledState := !s.avMuted }
      match enableLocalStream env s userId false with
      | .error e => .error e
      | .ok s =>
        match mapGet s.talkieButtons userId with
        | none => .error s
        | some b => .ok { s with talkieButtons := mapSet s.talkieButtons userId (addClass b "sussuros-stream-connected") }

/-- An inbound message on the module socket namespace: the action field of
the request, with its recipient filter userId and payload. -/
inductive Request where
  | peerSignal (recipientUserId : String) (data : Nat)
  | peerClose (recipientUserId : String)
  | peerBroadcasting (recipientUserId : String) (broadcasting : Bool)
  | unknown
deriving DecidableEq, Repr

def requestRecipient : Request → Option String
  | .peerSignal r _ => some r
  | .peerClose r => some r
  | .peerBroadcasting r _ => some r
  | .unknown => none

/-- The socket handler registered in hooks.js (lines 49-74): dispatch on
the action, acting only when the recipient filter matches the local user
id; sender is the second socket argument (the emitting user).  The
handler body has no try/catch, so an exception from closePeer or
_remoteBroadcasting escapes it. -/
def socketHandler (env : Env) (s : Sussuros) (req : Request) (sender : String) :
    Except Sussuros Sussuros :=
  match req with
  | .peerSignal r d => if r == env.localUserId then .ok (signal s sender d) else .ok s
  | .peerClose r => if r == env.localUserId then closePeer s sender else .ok s
  | .peerBroadcasting r b => if r == env.localUserId then remoteBroadcasting s sender b else .ok s
  | .unknown => .ok s

-- ===== basic lemmas about the table and heap helpers =====

theorem mapGet_mapSet_self {α : Type} (m : List (String × α)) (k : String) (v : α) :
    mapGet (mapSet m k v) k = some v := by
  induction m with
  | nil => simp [mapSet, mapGet]
  | cons p rest ih =>
    obtain ⟨k', w⟩ := p
    by_cases h : k' = k
    · subst h; simp [mapSet, mapGet]
    · simp [mapSet, mapGet, h, ih]

theorem mapGet_mapSet_ne {α : Type} (m : List (String × α)) (k k' : String) (v : α)
    (h : k' ≠ k) : mapGet (mapSet m k v) k' = mapGet m k' := by
  have h2 : ¬ k = k' := fun hh => h hh.symm
  induction m with
  | nil => simp [mapSet, mapGet, h2]
  | cons p rest ih =>
    obtain ⟨k'', w⟩ := p
    by_cases h3 : k'' = k
    · subst h3; simp [mapSet, mapGet, h2]
    · simp [mapSet, mapGet, h3, ih]

theorem mapGet_mapDelete_self {α : Type} (m : List (String × α)) (k : String) :
    mapGet (mapDelete m k) k = none := by
  induction m with
  | nil => simp [mapDelete, mapGet]
  | cons p rest ih =>
    obtain ⟨k', w⟩ := p
    by_cases h : k' = k
    · subst h; simpa [mapDelete, mapGet, List.filter_cons] using ih
    · simpa [mapDelete, mapGet, List.filter_cons, h] using ih

theorem mapGet_mapDelete_ne {α : Type} (m : List (String × α)) (k k' : String)
    (h : k' ≠ k) : mapGet (mapDelete m k) k' = mapGet m k' := by
  induction m with
  | nil => simp [mapDelete]
  | cons p rest ih =>
    obtain ⟨k'', w⟩ := p
    by_cases h2 : k'' = k
    · subst h2
      have h3 : ¬ k'' = k' := fun hh => h hh.symm
      simpa [mapDelete, mapGet, List.filter_cons, h3] using ih
    · by_cases h4 : k'' = k'
      · subst h4; simp [mapDelete, mapGet, List.filter_cons, h2]
      · simpa [mapDelete, mapGet, List.filter_cons, h2, h4] using ih

theorem mapSet_mapSet_self {α : Type} (m : List (String × α)) (k : String) (v w : α) :
    mapSet (mapSet m k v) k w = mapSet m k w := by
  induction m with
  | nil => simp [mapSet]
  | cons p rest ih =>
    obtain ⟨k', u⟩ := p
    by_cases h : k' = k
    · subst h; simp [mapSet]
    · simp [mapSet, h, ih]

theorem heapGet_heapSet_self {α : Type} (h : List (Nat × α)) (i : Nat) (v : α) :
    heapGet (heapSet h i v) i = some v := by
  induction h with
  | nil => simp [heapSet, heapGet]
  | cons p rest ih =>
    obtain ⟨j, w⟩ := p
    by_cases hj : j = i
    · subst hj; simp [heapSet, heapGet]
    · simp [heapSet, heapGet, hj, ih]

theorem heapGet_heapSet_ne {α : Type} (h : List (Nat × α)) (i i' : Nat) (v : α)
    (hne : i' ≠ i) : heapGet (heapSet h i v) i' = heapGet h i' := by
  have h2 : ¬ i = i' := fun hh => hne hh.symm
  induction h with
  | nil => simp [heapSet, heapGet, h2]
  | cons p rest ih =>
    obtain ⟨j, w⟩ := p
    by_cases hj : j = i
    · subst hj; simp [heapSet, heapGet, h2, hne]
    · simp [heapSet, heapGet, hj, ih]

theorem heapGet_stopAll (h : List (Nat × Track)) (tids : List Nat) (i : Nat) :
    heapGet (stopAll h tids) i =
      (heapGet h i).map (fun t => if tids.contains i then { t with stopped := true } else t) := by
  induction h with
  | nil => simp [stopAll, heapGet]
  | cons p rest ih =>
    obtain ⟨j, w⟩ := p
    simp only [stopAll, List.map_cons] at ih ⊢
    by_cases hj : j = i
    · subst hj; simp [heapGet]
    · simpa [heapGet, hj] using ih

theorem heapGet_setEnabledAll (h : List (Nat × Track)) (tids : List Nat) (e : Bool) (i : Nat) :
    heapGet (setEnabledAll h tids e) i =
      (heapGet h i).map (fun t => if tids.contains i then { t with enabled := e } else t) := by
  induction h with
  | nil => simp [setEnabledAll, heapGet]
  | cons p rest ih =>
    obtain ⟨j, w⟩ := p
    simp only [setEnabledAll, List.map_cons] at ih ⊢
    by_cases hj : j = i
    · subst hj; simp [heapGet]
    · simpa [heapGet, hj] using ih

theorem heapGet_destroyPeer (h : List (Nat × Peer)) (pid : Nat) (i : Nat) :
    heapGet (destroyPeer h pid) i =
      (heapGet h i).map (fun p => if i == pid then { p with destroyed := true } else p) := by
  induction h with
  | nil => simp [destroyPeer, heapGet]
  | cons p rest ih =>
    obtain ⟨j, w⟩ := p
    simp only [destroyPeer, List.map_cons] at ih ⊢
    by_cases hj : j = i
    · subst hj; simp [heapGet]
    · simpa [heapGet, hj] using ih

theorem stopAll_nil (h : List (Nat × Track)) : stopAll h [] = h := by
  induction h with
  | nil => rfl
  | cons p rest ih =>
    simp only [stopAll, List.map_cons] at ih ⊢
    simp [ih]

-- ===== characterisation of closePeer =====

/-- Tracks of the cached inbound stream for userId, empty when none. -/
def remoteTids (s : Sussuros) (userId : String) : List Nat :=
  match mapGet s.remoteStreams userId with
  | some st => st.tracks
  | none => []

/-- Tracks of the cached outbound stream for userId, empty when none. -/
def localTids (s : Sussuros) (userId : String) : List Nat :=
  match mapGet s.localStreams userId with
  | some st => st.tracks
  | none => []

/-- When a button exists for userId, closePeer runs to completion and its
result is this explicit state. -/
theorem closePeer_ok_spec (s : Sussuros) (userId : String) (b : List String)
    (hb : mapGet s.talkieButtons userId = some b) :
    closePeer s userId = .ok
      { s with
        audioElements := mapDelete s.audioElements userId,
        remoteStreams := mapDelete s.remoteStreams userId,
        localStreams := mapDelete s.localStreams userId,
        trackHeap := stopAll (stopAll s.trackHeap (remoteTids s userId)) (localTids s userId),
        peerHeap :=
          (match mapGet s.peers userId with
           | some pid => destroyPeer s.peerHeap pid
           | none => s.peerHeap),
        peers := mapDelete s.peers userId,
        talkieButtons := mapSet s.talkieButtons userId
          (removeClass (removeClass (removeClass b "sussuros-stream-broadcasting")
            "sussuros-stream-connected") "sussuros-peer-connected") } := by
  cases hr : mapGet s.remoteStreams userId <;>
  cases hl : mapGet s.localStreams userId <;>
  cases hp : mapGet s.peers userId <;>
    simp [closePeer, remoteTids, localTids, hr, hl, hp, hb, mapGet_mapSet_self,
      mapSet_mapSet_self, stopAll_nil]

/-- When no button exists for userId, closePeer throws a TypeError after
having deleted the audio element, stopped and deleted the inbound stream,
and stopped (but not deleted) the outbound stream. -/
theorem closePeer_error_spec (s : Sussuros) (userId : String)
    (hb : mapGet s.talkieButtons userId = none) :
    closePeer s userId = .error
      { s with
        audioElements := mapDelete s.audioElements userId,
        remoteStreams := mapDelete s.remoteStreams userId,
        trackHeap := stopAll (stopAll s.trackHeap (remoteTids s userId)) (localTids s userId) } := by
  cases hr : mapGet s.remoteStreams userId <;>
  cases hl : mapGet s.localStreams userId <;>
    simp [closePeer, remoteTids, localTids, hr, hl, hb, stopAll_nil]

-- ===== characterisation of disableAvClient and enableLocalStream =====

/-- disableAvClient only touches the AV flags and the saved-state slots:
all session tables, heaps and the outbox are untouched. -/
theorem disableAvClient_frame (env : Env) (s : Sussuros) (d : Bool) :
    (disableAvClient env s d).peers = s.peers ∧
    (disableAvClient env s d).peerHeap = s.peerHeap ∧
    (disableAvClient env s d).nextPeerId = s.nextPeerId ∧
    (disableAvClient env s d).audioElements = s.audioElements ∧
    (disableAvClient env s d).remoteStreams = s.remoteStreams ∧
    (disableAvClient env s d).localStreams = s.localStreams ∧
    (disableAvClient env s d).trackHeap = s.trackHeap ∧
    (disableAvClient env s d).talkieButtons = s.talkieButtons ∧
    (disableAvClient env s d).outbox = s.outbox := by
  unfold disableAvClient
  repeat' split
  all_goals simp [apply_ite]

/-- In always-on mode with exclusivity configured and a toggleBroadcast
method available, starting a whisper saves the AV flags and switches the
broadcast off. -/
theorem disableAvClient_begin (env : Env) (s : Sussuros)
    (h1 : env.disableAvClient = true) (h2 : env.toggleBroadcast = false)
    (h3 : env.avClientPresent = true) (h4 : env.isVoiceAlways = true)
    (h5 : env.hasToggleBroadcast = true) :
    disableAvClient env s true =
      { s with
        savedMutedFlag := some s.avMuted,
        savedBroadcasting := some (if env.exposesBroadcasting then s.avBroadcasting else !s.avMuted),
        avBroadcasting := false } := by
  simp [disableAvClient, h1, h2, h3, h4, h5]

/-- Ending a whisper with a saved broadcasting flag restores it and clears
both saved slots. -/
theorem disableAvClient_end_saved (env : Env) (s : Sussuros) (b : Bool)
    (h1 : env.disableAvClient = true) (h2 : env.toggleBroadcast = false)
    (h3 : env.avClientPresent = true) (h4 : env.isVoiceAlways = true)
    (h5 : env.hasToggleBroadcast = true)
    (hsb : s.savedBroadcasting = some b) :
    disableAvClient env s false =
      { s with avBroadcasting := b, savedMutedFlag := none, savedBroadcasting := none } := by
  simp [disableAvClient, h1, h2, h3, h4, h5, hsb]

/-- Ending a whisper with nothing saved: the undefined saved muted flag is
falsy, so the broadcast is switched on. -/
theorem disableAvClient_end_unsaved (env : Env) (s : Sussuros)
    (h1 : env.disableAvClient = true) (h2 : env.toggleBroadcast = false)
    (h3 : env.avClientPresent = true) (h4 : env.isVoiceAlways = true)
    (h5 : env.hasToggleBroadcast = true)
    (hsb : s.savedBroadcasting = none) (hsm : s.savedMutedFlag = none) :
    disableAvClient env s false =
      { s with avBroadcasting := true, savedMutedFlag := none, savedBroadcasting := none } := by
  simp [disableAvClient, h1, h2, h3, h4, h5, hsb, hsm]

/-- enableLocalStream on a state where the peer and the cached stream
exist, a change is needed, and a button exists: the explicit result. -/
theorem enableLocalStream_change_spec (env : Env) (s : Sussuros) (userId : String)
    (st : MediaStream) (b : List String) (enable : Bool)
    (hp : mapHas s.peers userId = true)
    (hs : mapGet s.localStreams userId = some st)
    (hne : isLocalStreamEnabled s userId ≠ enable)
    (hb : mapGet s.talkieButtons userId = some b) :
    enableLocalStream env s userId enable = .ok
      { disableAvClient env
          { s with
            trackHeap := setEnabledAll s.trackHeap st.tracks enable,
            outbox := s.outbox ++ [SocketMsg.peerBroadcasting userId enable] } enable with
        talkieButtons := mapSet s.talkieButtons userId
          (if enable then addClass b "sussuros-stream-broadcasting"
           else removeClass b "sussuros-stream-broadcasting") } := by
  have hhas : mapHas s.localStreams userId = true := by simp [mapHas, hs]
  have hne2 : (isLocalStreamEnabled s userId != enable) = true := by
    cases henb : isLocalStreamEnabled s userId <;> cases enable <;> simp_all
  obtain ⟨-, -, -, -, -, -, ht, htb, -⟩ :=
    disableAvClient_frame env
      { s with
        trackHeap := setEnabledAll s.trackHeap st.tracks enable,
        outbox := s.outbox ++ [SocketMsg.peerBroadcasting userId enable] } enable
  simp only [enableLocalStream, hp, hhas, Bool.not_true, Bool.or_self, Bool.false_eq_true,
    if_false, hne2, if_true, hs]
  rw [htb] at *
  simp [hb, htb]

/-- enableLocalStream when the peer or the stream is missing: early return,
no state change (line 211 and 218 of the source). -/
theorem enableLocalStream_missing_spec (env : Env) (s : Sussuros) (userId : String) (enable : Bool)
    (h : mapHas s.peers userId = false ∨ mapHas s.localStreams userId = false) :
    enableLocalStream env s userId enable = .ok s := by
  rcases h with h | h <;> simp [enableLocalStream, h]

-- ===== concrete fixtures for witnesses and counterexamples =====

/-- The freshly constructed module state: all tables empty, nothing saved. -/
def emptySussuros : Sussuros :=
  { peers := [], peerHeap := [], nextPeerId := 0, audioElements := [],
    remoteStreams := [], localStreams := [], trackHeap := [], talkieButtons := [],
    savedAvEnabledState := false, savedMutedFlag := none, savedBroadcasting := none,
    avMuted := false, avBroadcasting := false, outbox := [] }

/-- Settings for the concrete scenarios: exclusivity configured
(disableAvClient on, push-to-talk mode), AV client present in always-on
voice mode exposing both the broadcasting property and the
toggleBroadcast method; the local user id is me. -/
def envDefault : Env :=
  { disableAvClient := true, toggleBroadcast := false, avClientPresent := true,
    isVoiceAlways := true, exposesBroadcasting := true, hasToggleBroadcast := true,
    localUserId := "me" }

/-- A fully established session with remote participant u1: connected
transport 0, inbound stream holding track 0, outbound stream holding the
currently disabled track 1, an audio element and a UI button; the
always-on channel is unmuted and broadcasting. -/
def exampleState : Sussuros :=
  { peers := [("u1", 0)],
    peerHeap := [(0, { initiator := true, connected := true, destroyed := false,
                       signaled := [], sent := [], attached := [] })],
    nextPeerId := 1,
    audioElements := [("u1", 0)],
    remoteStreams := [("u1", { tracks := [0] })],
    localStreams := [("u1", { tracks := [1] })],
    trackHeap := [(0, { enabled := true, stopped := false }),
                  (1, { enabled := false, stopped := false })],
    talkieButtons := [("u1", ["sussuros-peer-connected", "sussuros-stream-connected"])],
    savedAvEnabledState := false, savedMutedFlag := none, savedBroadcasting := none,
    avMuted := false, avBroadcasting := true, outbox := [] }

/-- exampleState after closePeer for u1 has run to completion. -/
def exampleClosed : Sussuros :=
  { peers := [],
    peerHeap := [(0, { initiator := true, connected := true, destroyed := true,
                       signaled := [], sent := [], attached := [] })],
    nextPeerId := 1,
    audioElements := [], remoteStreams := [], localStreams := [],
    trackHeap := [(0, { enabled := true, stopped := true }),
                  (1, { enabled := false, stopped := true })],
    talkieButtons := [("u1", [])],
    savedAvEnabledState := false, savedMutedFlag := none, savedBroadcasting := none,
    avMuted := false, avBroadcasting := true, outbox := [] }

/-- Like exampleState, but the transport for u1 is still negotiating
(connected = false) while an outbound stream is already cached. -/
def negotiatingState : Sussuros :=
  { exampleState with
    peerHeap := [(0, { initiator := true, connected := false, destroyed := false,
                       signaled := [], sent := [], attached := [] })] }

-- ===== C1 =====

/-- Number of table entries carrying a given key. -/
def countKey {α : Type} (m : List (String × α)) (k : String) : Nat :=
  (m.filter (fun p => p.1 == k)).length

theorem countKey_mapSet_present {α : Type} (m : List (String × α)) (k : String) (v : α) :
    mapHas m k = true → countKey (mapSet m k v) k = countKey m k := by
  induction m with
  | nil => intro h; simp [mapHas, mapGet] at h
  | cons p rest ih =>
    intro h
    obtain ⟨k', w⟩ := p
    by_cases hk : k' = k
    · subst hk; simp [mapSet, countKey, List.filter_cons]
    · have h' : mapHas rest k = true := by simpa [mapHas, mapGet, hk] using h
      simp only [mapSet, countKey, List.filter_cons] at ih ⊢
      simpa [hk] using ih h'

/-- C1 counterexample: starting from the empty state, connect to u1 twice
with no close in between.  The first connect installs transport handle 0;
the second connect does not no-op: it replaces the entry with fresh handle
1, and the displaced handle 0 is never destroyed. -/
theorem c1_counterexample :
    mapGet (initPeer emptySussuros "u1").peers "u1" = some 0 ∧
    mapGet (initPeer (initPeer emptySussuros "u1") "u1").peers "u1" = some 1 ∧
    heapGet (initPeer (initPeer emptySussuros "u1") "u1").peerHeap 0 =
      some { initiator := true, connected := false, destroyed := false,
             signaled := [], sent := [], attached := [] } := by
  refine ⟨rfl, rfl, rfl⟩

/-- C1 (amended): a second connect is a logged no-op exactly when the
existing transport reports connected; when the existing session is still
negotiating, the second connect replaces the transport handle with a
fresh one.  In both cases the number of table entries for the id is
unchanged (in particular still exactly one for a well-formed table). -/
theorem c1_amended (s : Sussuros) (userId : String) (pid : Nat) (p : Peer)
    (h1 : mapGet s.peers userId = some pid) (h2 : heapGet s.peerHeap pid = some p) :
    (p.connected = true → initPeer s userId = s) ∧
    (p.connected = false →
      mapGet (initPeer s userId).peers userId = some s.nextPeerId ∧
      heapGet (initPeer s userId).peerHeap s.nextPeerId =
        some { initiator := true, connected := false, destroyed := false,
               signaled := [], sent := [], attached := [] } ∧
      countKey (initPeer s userId).peers userId = countKey s.peers userId) := by
  constructor
  · intro hc; simp [initPeer, h1, h2, hc]
  · intro hc
    have hhas : mapHas s.peers userId = true := by simp [mapHas, h1]
    simp [initPeer, h1, h2, hc, setupPeer, mapGet_mapSet_self, heapGet_heapSet_self,
      countKey_mapSet_present s.peers userId s.nextPeerId hhas]

/-- C1 amended witness: the connected session of exampleState makes the
second connect a no-op; the negotiating session of negotiatingState gets
its handle replaced by fresh handle 1 while keeping one table entry. -/
theorem c1_amended_witness :
    initPeer exampleState "u1" = exampleState ∧
    (mapGet (initPeer negotiatingState "u1").peers "u1" = some 1 ∧
     heapGet (initPeer negotiatingState "u1").peerHeap 1 =
       some { initiator := true, connected := false, destroyed := false,
              signaled := [], sent := [], attached := [] } ∧
     countKey (initPeer negotiatingState "u1").peers "u1" = countKey negotiatingState.peers "u1") :=
  ⟨(c1_amended exampleState "u1" 0
      { initiator := true, connected := true, destroyed := false,
        signaled := [], sent := [], attached := [] } rfl rfl).1 rfl,
   (c1_amended negotiatingState "u1" 0
      { initiator := true, connected := false, destroyed := false,
        signaled := [], sent := [], attached := [] } rfl rfl).2 rfl⟩

-- ===== C2 =====

/-- C2: when closePeer completes, the participant id is absent from the
peers, audioElements, remoteStreams and localStreams tables, every track
of the inbound and outbound streams the session had is stopped, and the
transport handle is destroyed - even when some of these resources were
never established (the quantified premises are then vacuous). -/
theorem c2_close_releases (s s' : Sussuros) (userId : String)
    (h : closePeer s userId = .ok s') :
    mapGet s'.peers userId = none ∧
    mapGet s'.audioElements userId = none ∧
    mapGet s'.remoteStreams userId = none ∧
    mapGet s'.localStreams userId = none ∧
    (∀ st, mapGet s.remoteStreams userId = some st → ∀ tid ∈ st.tracks,
      ∀ t, heapGet s.trackHeap tid = some t →
        ∃ t', heapGet s'.trackHeap tid = some t' ∧ t'.stopped = true) ∧
    (∀ st, mapGet s.localStreams userId = some st → ∀ tid ∈ st.tracks,
      ∀ t, heapGet s.trackHeap tid = some t →
        ∃ t', heapGet s'.trackHeap tid = some t' ∧ t'.stopped = true) ∧
    (∀ pid, mapGet s.peers userId = some pid → ∀ p, heapGet s.peerHeap pid = some p →
        ∃ p', heapGet s'.peerHeap pid = some p' ∧ p'.destroyed = true) := by
  cases hb : mapGet s.talkieButtons userId with
  | none => rw [closePeer_error_spec s userId hb] at h; cases h
  | some b =>
    rw [closePeer_ok_spec s userId b hb] at h
    injection h with h
    subst h
    refine ⟨mapGet_mapDelete_self _ _, mapGet_mapDelete_self _ _,
      mapGet_mapDelete_self _ _, mapGet_mapDelete_self _ _, ?_, ?_, ?_⟩
    · intro st hst tid htid t ht
      simp only [remoteTids, localTids, hst, heapGet_stopAll, ht, Option.map_some]
      exact ⟨_, rfl, by simp [htid, apply_ite]⟩
    · intro st hst tid htid t ht
      simp only [remoteTids, localTids, hst, heapGet_stopAll, ht, Option.map_some]
      exact ⟨_, rfl, by simp [htid, apply_ite]⟩
    · intro pid hpid p hp
      simp only [hpid, heapGet_destroyPeer, hp, Option.map_some, beq_self_eq_true, if_true]
      exact ⟨_, rfl, rfl⟩

/-- C2 witness: the conclusions of the close theorem evaluated on the
fully established example session. -/
theorem c2_witness :
    mapGet exampleClosed.peers "u1" = none ∧
    mapGet exampleClosed.audioElements "u1" = none ∧
    mapGet exampleClosed.remoteStreams "u1" = none ∧
    mapGet exampleClosed.localStreams "u1" = none ∧
    (∀ st, mapGet exampleState.remoteStreams "u1" = some st → ∀ tid ∈ st.tracks,
      ∀ t, heapGet exampleState.trackHeap tid = some t →
        ∃ t', heapGet exampleClosed.trackHeap tid = some t' ∧ t'.stopped = true) ∧
    (∀ st, mapGet exampleState.localStreams "u1" = some st → ∀ tid ∈ st.tracks,
      ∀ t, heapGet exampleState.trackHeap tid = some t →
        ∃ t', heapGet exampleClosed.trackHeap tid = some t' ∧ t'.stopped = true) ∧
    (∀ pid, mapGet exampleState.peers "u1" = some pid →
      ∀ p, heapGet exampleState.peerHeap pid = some p →
        ∃ p', heapGet exampleClosed.peerHeap pid = some p' ∧ p'.destroyed = true) :=
  c2_close_releases exampleState exampleClosed "u1" (by rfl)

-- ===== C3 =====

/-- The state after the session with u3 was closed while its capture was
still pending: all tables empty again, only the UI button remains. -/
def afterCloseU3 : Sussuros := { emptySussuros with talkieButtons := [("u3", [])] }

/-- The state the late-capture resolution leaves behind: the freshly
captured stream is cached in localStreams and its track 7 is still live
(enabled, not stopped); addStream threw on the missing peer, so no
transport ever received the stream. -/
def lateCaptureLeak : Sussuros :=
  { emptySussuros with
    talkieButtons := [("u3", [])],
    trackHeap := [(7, { enabled := true, stopped := false })],
    localStreams := [("u3", { tracks := [7] })] }

/-- C3: evaluating the getUserMedia resolution callback for u3 after
closePeer already removed the session.  The spec requires the resolved
stream to be stopped immediately and never attached; the code instead
caches the stream, then throws a TypeError at peers.get(u3).addStream
(swallowed by the promise .catch), leaving the microphone track live and
the dead entry in localStreams.  The stream is indeed never attached
(the peer heap stays empty), but its track is neither stopped nor
disabled. -/
theorem c3_late_capture_eval :
    createUserAudioResolve envDefault afterCloseU3 "u3" [7] = .error lateCaptureLeak ∧
    mapGet lateCaptureLeak.localStreams "u3" = some { tracks := [7] } ∧
    heapGet lateCaptureLeak.trackHeap 7 = some { enabled := true, stopped := false } ∧
    lateCaptureLeak.peerHeap = [] :=
  ⟨rfl, rfl, rfl, rfl⟩

-- ===== C4 =====

/-- C4 counterexample: with exclusivity configured and the AV client in
always-on mode, running the endExclusive path with nothing saved is not a
no-op: the broadcast flag of the shared channel flips from false to true
(the undefined saved muted flag is treated as falsy, so the fallback
switches broadcasting on). -/
theorem c4_counterexample :
    emptySussuros.savedBroadcasting = none ∧
    emptySussuros.savedMutedFlag = none ∧
    emptySussuros.avBroadcasting = false ∧
    (disableAvClient envDefault emptySussuros false).avBroadcasting = true :=
  ⟨rfl, rfl, rfl, rfl⟩

/-- C4 (amended): when a SavedBroadcastState is held, endExclusive
restores the broadcast flag to the saved value (that value was itself
derived from the muted flag at save time when the client exposes no
broadcasting property) and clears the saved state; when nothing was
saved it is not a no-op: it unconditionally switches broadcasting on. -/
theorem c4_amended (env : Env) (s : Sussuros)
    (h1 : env.disableAvClient = true) (h2 : env.toggleBroadcast = false)
    (h3 : env.avClientPresent = true) (h4 : env.isVoiceAlways = true)
    (h5 : env.hasToggleBroadcast = true) :
    (∀ b, s.savedBroadcasting = some b →
      (disableAvClient env s false).avBroadcasting = b ∧
      (disableAvClient env s false).savedBroadcasting = none ∧
      (disableAvClient env s false).savedMutedFlag = none) ∧
    (s.savedBroadcasting = none → s.savedMutedFlag = none →
      (disableAvClient env s false).avBroadcasting = true ∧
      (disableAvClient env s false).savedBroadcasting = none ∧
      (disableAvClient env s false).savedMutedFlag = none) := by
  constructor
  · intro b hsb
    rw [disableAvClient_end_saved env s b h1 h2 h3 h4 h5 hsb]
    exact ⟨rfl, rfl, rfl⟩
  · intro hsb hsm
    rw [disableAvClient_end_unsaved env s h1 h2 h3 h4 h5 hsb hsm]
    exact ⟨rfl, rfl, rfl⟩

/-- A held SavedBroadcastState recording that the user was muted and not
broadcasting when the whisper began. -/
def savedStateC4 : Sussuros :=
  { emptySussuros with
    savedMutedFlag := some true,
    savedBroadcasting := some false,
    avBroadcasting := true }

/-- C4 amended witness: restoring a saved false broadcast flag switches
broadcasting off and clears the slots; the unsaved case switches it on. -/
theorem c4_amended_witness :
    ((disableAvClient envDefault savedStateC4 false).avBroadcasting = false ∧
     (disableAvClient envDefault savedStateC4 false).savedBroadcasting = none ∧
     (disableAvClient envDefault savedStateC4 false).savedMutedFlag = none) ∧
    ((disableAvClient envDefault emptySussuros false).avBroadcasting = true ∧
     (disableAvClient envDefault emptySussuros false).savedBroadcasting = none ∧
     (disableAvClient envDefault emptySussuros false).savedMutedFlag = none) :=
  ⟨(c4_amended envDefault savedStateC4 rfl rfl rfl rfl rfl).1 false rfl,
   (c4_amended envDefault emptySussuros rfl rfl rfl rfl rfl).2 rfl rfl⟩

-- ===== C5 =====

/-- C5: with always-on mode and exclusivity both enabled, enabling
outbound audio to a participant while the shared channel is unmuted and
broadcasting makes the channel report broadcasting = false immediately
after, and disabling it again makes the channel report broadcasting =
true immediately after (no other private session has touched the saved
slot, which is expressed by the state taken before the first call). -/
theorem c5_exclusivity (env : Env) (s : Sussuros) (userId : String)
    (st : MediaStream) (tid : Nat) (t : Track) (b : List String)
    (h1 : env.disableAvClient = true) (h2 : env.toggleBroadcast = false)
    (h3 : env.avClientPresent = true) (h4 : env.isVoiceAlways = true)
    (h5 : env.hasToggleBroadcast = true)
    (hp : mapHas s.peers userId = true)
    (hs : mapGet s.localStreams userId = some st)
    (htid : tid ∈ st.tracks)
    (ht : heapGet s.trackHeap tid = some t)
    (hb : mapGet s.talkieButtons userId = some b)
    (hdis : isLocalStreamEnabled s userId = false)
    (hm : s.avMuted = false) (hbc : s.avBroadcasting = true) :
    ∃ s1 s2,
      enableLocalStream env s userId true = .ok s1 ∧ s1.avBroadcasting = false ∧
      enableLocalStream env s1 userId false = .ok s2 ∧ s2.avBroadcasting = true := by
  have e1 : enableLocalStream env s userId true = .ok
      { s with
        trackHeap := setEnabledAll s.trackHeap st.tracks true,
        outbox := s.outbox ++ [SocketMsg.peerBroadcasting userId true],
        savedMutedFlag := some false,
        savedBroadcasting := some true,
        avBroadcasting := false,
        talkieButtons := mapSet s.talkieButtons userId (addClass b "sussuros-stream-broadcasting") } := by
    rw [enableLocalStream_change_spec env s userId st b true hp hs (by simp [hdis]) hb,
        disableAvClient_begin env _ h1 h2 h3 h4 h5]
    simp [hm, hbc]
  set S1 : Sussuros :=
      { s with
        trackHeap := setEnabledAll s.trackHeap st.tracks true,
        outbox := s.outbox ++ [SocketMsg.peerBroadcasting userId true],
        savedMutedFlag := some false,
        savedBroadcasting := some true,
        avBroadcasting := false,
        talkieButtons := mapSet s.talkieButtons userId (addClass b "sussuros-stream-broadcasting") }
    with hS1
  have hp2 : mapHas S1.peers userId = true := by rw [hS1]; exact hp
  have hs2 : mapGet S1.localStreams userId = some st := by rw [hS1]; exact hs
  have hb2 : mapGet S1.talkieButtons userId = some (addClass b "sussuros-stream-broadcasting") := by
    rw [hS1]; exact mapGet_mapSet_self _ _ _
  have henabled : isLocalStreamEnabled S1 userId = true := by
    rw [hS1]
    unfold isLocalStreamEnabled
    simp only [hs]
    rw [List.any_eq_true]
    exact ⟨tid, htid, by simp [heapGet_setEnabledAll, ht, htid]⟩
  have e2 := enableLocalStream_change_spec env S1 userId st
      (addClass b "sussuros-stream-broadcasting") false hp2 hs2 (by simp [henabled]) hb2
  rw [disableAvClient_end_saved env
        { S1 with
          trackHeap := setEnabledAll S1.trackHeap st.tracks false,
          outbox := S1.outbox ++ [SocketMsg.peerBroadcasting userId false] }
        true h1 h2 h3 h4 h5 (by rw [hS1])] at e2
  exact ⟨S1, _, e1, by rw [hS1], e2, rfl⟩

/-- C5 witness: the full exclusivity round trip on the concrete
established session, with the shared channel unmuted and broadcasting. -/
theorem c5_witness :
    ∃ s1 s2,
      enableLocalStream envDefault exampleState "u1" true = .ok s1 ∧
      s1.avBroadcasting = false ∧
      enableLocalStream envDefault s1 "u1" false = .ok s2 ∧
      s2.avBroadcasting = true :=
  c5_exclusivity envDefault exampleState "u1" { tracks := [1] } 1
    { enabled := false, stopped := false }
    ["sussuros-peer-connected", "sussuros-stream-connected"]
    rfl rfl rfl rfl rfl rfl rfl (by decide) rfl rfl rfl rfl rfl

-- ===== C6 =====

/-- negotiatingState after outbound audio was enabled: the track flags
were flipped, the broadcast-state message was emitted and the AV client
reconciled, although the transport never reported connected. -/
def negotiatingAfterEnable : Sussuros :=
  { peers := [("u1", 0)],
    peerHeap := [(0, { initiator := true, connected := false, destroyed := false,
                       signaled := [], sent := [], attached := [] })],
    nextPeerId := 1,
    audioElements := [("u1", 0)],
    remoteStreams := [("u1", { tracks := [0] })],
    localStreams := [("u1", { tracks := [1] })],
    trackHeap := [(0, { enabled := true, stopped := false }),
                  (1, { enabled := true, stopped := false })],
    talkieButtons := [("u1", ["sussuros-peer-connected", "sussuros-stream-connected",
                              "sussuros-stream-broadcasting"])],
    savedAvEnabledState := false,
    savedMutedFlag := some false,
    savedBroadcasting := some true,
    avMuted := false, avBroadcasting := false,
    outbox := [SocketMsg.peerBroadcasting "u1" true] }

/-- C6 counterexample: a session whose transport is not connected but
whose outbound stream is cached.  enableLocalStream takes full effect
(the outbound track becomes enabled) although the connection state is
not connected, refuting the connected-only guard the claim states. -/
theorem c6_counterexample :
    peerConnected negotiatingState "u1" = false ∧
    enableLocalStream envDefault negotiatingState "u1" true = .ok negotiatingAfterEnable ∧
    isLocalStreamEnabled negotiatingAfterEnable "u1" = true :=
  ⟨rfl, rfl, rfl⟩

/-- C6 (amended): enableLocalStream is a no-op exactly when the peer
entry or the cached outbound stream is missing; when both exist it takes
effect regardless of the connection state of the transport, flipping the
enabled flag of every cached outbound track. -/
theorem c6_amended (env : Env) (s : Sussuros) (userId : String) (e : Bool) :
    ((mapHas s.peers userId = false ∨ mapHas s.localStreams userId = false) →
      enableLocalStream env s userId e = .ok s) ∧
    (∀ st tid t b, mapGet s.localStreams userId = some st →
      mapHas s.peers userId = true →
      isLocalStreamEnabled s userId ≠ e → tid ∈ st.tracks →
      heapGet s.trackHeap tid = some t →
      mapGet s.talkieButtons userId = some b →
      ∃ s', enableLocalStream env s userId e = .ok s' ∧
        heapGet s'.trackHeap tid = some { t with enabled := e }) := by
  constructor
  · exact enableLocalStream_missing_spec env s userId e
  · intro st tid t b hs hp hne htid ht hb
    refine ⟨_, enableLocalStream_change_spec env s userId st b e hp hs hne hb, ?_⟩
    obtain ⟨-, -, -, -, -, -, hth, -, -⟩ := disableAvClient_frame env
      { s with trackHeap := setEnabledAll s.trackHeap st.tracks e,
               outbox := s.outbox ++ [SocketMsg.peerBroadcasting userId e] } e
    simp only [hth]
    rw [heapGet_setEnabledAll, ht]
    simp [htid]

/-- C6 amended witness: a missing entry makes the call a no-op; the
negotiating session gets its cached track enabled. -/
theorem c6_amended_witness :
    enableLocalStream envDefault emptySussuros "u9" true = .ok emptySussuros ∧
    (∃ s', enableLocalStream envDefault negotiatingState "u1" true = .ok s' ∧
      heapGet s'.trackHeap 1 = some { enabled := true, stopped := false }) :=
  ⟨(c6_amended envDefault emptySussuros "u9" true).1 (Or.inl rfl),
   (c6_amended envDefault negotiatingState "u1" true).2 { tracks := [1] } 1
     { enabled := false, stopped := false }
     ["sussuros-peer-connected", "sussuros-stream-connected"]
     rfl rfl (by decide) (by decide) rfl rfl⟩

-- ===== C7 =====

/-- A successful closePeer removes exactly the closed id from the peers
table and emits nothing itself. -/
theorem closePeer_ok_parts (s s' : Sussuros) (userId : String)
    (h : closePeer s userId = .ok s') :
    s'.peers = mapDelete s.peers userId ∧ s'.outbox = s.outbox := by
  cases hb : mapGet s.talkieButtons userId with
  | none => rw [closePeer_error_spec s userId hb] at h; cases h
  | some b =>
    rw [closePeer_ok_spec s userId b hb] at h
    injection h with h
    subst h
    exact ⟨rfl, rfl⟩

/-- The forEach of closeAllPeers, run over a snapshot covering every key
of the table: when it completes, the table is empty and one peer-close
message per snapshot entry was emitted, in iteration order. -/
theorem closeAllLoop_spec :
    ∀ (l : List (String × Nat)) (s s' : Sussuros),
      closeAllLoop s l = .ok s' →
      (∀ p ∈ s.peers, p.1 ∈ l.map Prod.fst) →
      s'.peers = [] ∧ s'.outbox = s.outbox ++ l.map (fun q => SocketMsg.peerClose q.1) := by
  intro l
  induction l with
  | nil =>
    intro s s' h hinv
    simp only [closeAllLoop] at h
    injection h with h
    subst h
    refine ⟨?_, by simp⟩
    cases hsp : s.peers with
    | nil => rfl
    | cons q rest =>
      exfalso
      have hmem := hinv q (by rw [hsp]; exact List.mem_cons_self q rest)
      simp at hmem
  | cons q rest ih =>
    intro s s' h hinv
    obtain ⟨u, pid⟩ := q
    simp only [closeAllLoop] at h
    cases hcp : closePeer { s with outbox := s.outbox ++ [SocketMsg.peerClose u] } u with
    | error e => rw [hcp] at h; cases h
    | ok s1 =>
      rw [hcp] at h
      obtain ⟨hpe, hob⟩ := closePeer_ok_parts _ _ _ hcp
      have hinv1 : ∀ p ∈ s1.peers, p.1 ∈ rest.map Prod.fst := by
        intro p hp
        rw [hpe] at hp
        simp only [mapDelete] at hp
        obtain ⟨hp1, hp2⟩ := List.mem_filter.mp hp
        have hmem := hinv p hp1
        simp only [List.map_cons] at hmem
        rcases List.mem_cons.mp hmem with hh | hh
        · exfalso; rw [hh] at hp2; simp at hp2
        · exact hh
      obtain ⟨h1, h2⟩ := ih s1 s' h hinv1
      refine ⟨h1, ?_⟩
      rw [h2, hob]
      simp

/-- C7: a device-change notification touching an audio device key closes
every session, relaying one close notification per open session before
the local closes, and leaves the session table empty; a change touching
no audio device key changes nothing. -/
theorem c7_device_change (s : Sussuros) (keys : List String) :
    (keys.any (fun k => k == "client.audioSink" || k == "client.audioSrc") = false →
      onRtcSettingsChanged s keys = .ok s) ∧
    (∀ s', keys.any (fun k => k == "client.audioSink" || k == "client.audioSrc") = true →
      onRtcSettingsChanged s keys = .ok s' →
      s'.peers = [] ∧
      s'.outbox = s.outbox ++ s.peers.map (fun q => SocketMsg.peerClose q.1)) := by
  constructor
  · intro h
    simp [onRtcSettingsChanged, h]
  · intro s' hk h
    simp only [onRtcSettingsChanged, hk, if_true, closeAllPeers] at h
    exact closeAllLoop_spec s.peers s s' h (fun p hp => List.mem_map_of_mem Prod.fst hp)

/-- Two connected sessions uA and uB, each with a UI button. -/
def twoSessions : Sussuros :=
  { peers := [("uA", 0), ("uB", 1)],
    peerHeap := [(0, { initiator := true, connected := true, destroyed := false,
                       signaled := [], sent := [], attached := [] }),
                 (1, { initiator := true, connected := true, destroyed := false,
                       signaled := [], sent := [], attached := [] })],
    nextPeerId := 2,
    audioElements := [], remoteStreams := [], localStreams := [], trackHeap := [],
    talkieButtons := [("uA", ["sussuros-peer-connected"]), ("uB", ["sussuros-peer-connected"])],
    savedAvEnabledState := false, savedMutedFlag := none, savedBroadcasting := none,
    avMuted := false, avBroadcasting := false, outbox := [] }

/-- twoSessions after the audioSrc device change closed everything. -/
def twoClosed : Sussuros :=
  { peers := [],
    peerHeap := [(0, { initiator := true, connected := true, destroyed := true,
                       signaled := [], sent := [], attached := [] }),
                 (1, { initiator := true, connected := true, destroyed := true,
                       signaled := [], sent := [], attached := [] })],
    nextPeerId := 2,
    audioElements := [], remoteStreams := [], localStreams := [], trackHeap := [],
    talkieButtons := [("uA", []), ("uB", [])],
    savedAvEnabledState := false, savedMutedFlag := none, savedBroadcasting := none,
    avMuted := false, avBroadcasting := false,
    outbox := [SocketMsg.peerClose "uA", SocketMsg.peerClose "uB"] }

/-- C7 witness: a non-audio key changes nothing; the audioSrc key closes
sessions uA and uB, emptying the table and emitting both notifications. -/
theorem c7_witness :
    onRtcSettingsChanged twoSessions ["client.volume"] = .ok twoSessions ∧
    (twoClosed.peers = [] ∧
     twoClosed.outbox = twoSessions.outbox ++
       twoSessions.peers.map (fun q => SocketMsg.peerClose q.1)) :=
  ⟨(c7_device_change twoSessions ["client.volume"]).1 rfl,
   (c7_device_change twoSessions ["client.audioSrc"]).2 twoClosed rfl (by rfl)⟩

-- ===== C8 =====

/-- C8: an inbound relay message of any of the three kinds whose
recipient filter does not match the local user id leaves the whole state
(tables, streams, saved flags, buttons, outbox) unchanged. -/
theorem c8_recipient_filter (env : Env) (s : Sussuros) (req : Request) (sender : String)
    (r : String) (hr : requestRecipient req = some r) (hne : r ≠ env.localUserId) :
    socketHandler env s req sender = .ok s := by
  cases req with
  | peerSignal r' d =>
    simp only [requestRecipient, Option.some.injEq] at hr
    subst hr
    simp [socketHandler, hne]
  | peerClose r' =>
    simp only [requestRecipient, Option.some.injEq] at hr
    subst hr
    simp [socketHandler, hne]
  | peerBroadcasting r' bb =>
    simp only [requestRecipient, Option.some.injEq] at hr
    subst hr
    simp [socketHandler, hne]
  | unknown => simp [requestRecipient] at hr

/-- C8 witness: a close request addressed to u1 arriving at the client of
user me leaves the established example session untouched. -/
theorem c8_witness :
    socketHandler envDefault exampleState (Request.peerClose "u1") "u2" = .ok exampleState :=
  c8_recipient_filter envDefault exampleState (Request.peerClose "u1") "u2" "u1" rfl (by decide)

-- ===== C9 =====

/-- C9 counterexample: an inbound relay close message for a participant
with no UI button and no session, addressed to the local user, makes the
socket handler throw: closePeer hits removeClass on an undefined button
and the handler body has no try/catch, so the TypeError escapes the
event boundary (the .error result). -/
theorem c9_counterexample :
    socketHandler envDefault emptySussuros (Request.peerClose "me") "u2" = .error emptySussuros :=
  rfl

/-- C9 (amended): the context-menu callback is wrapped in try/catch, but
the socket handler is not: an inbound close message for a sender with no
UI button throws an uncaught TypeError out of the handler, after the
audio element and inbound stream were released but before the outbound
stream, transport handle and table entry were (the session entry
survives in the peers table). -/
theorem c9_amended (env : Env) (s : Sussuros) (sender : String)
    (hb : mapGet s.talkieButtons sender = none) :
    socketHandler env s (Request.peerClose env.localUserId) sender = .error
      { s with
        audioElements := mapDelete s.audioElements sender,
        remoteStreams := mapDelete s.remoteStreams sender,
        trackHeap := stopAll (stopAll s.trackHeap (remoteTids s sender)) (localTids s sender) } := by
  simp only [socketHandler, beq_self_eq_true, if_true]
  exact closePeer_error_spec s sender hb

/-- A connected session with an inbound stream for u2 whose UI button was
never injected. -/
def buttonlessState : Sussuros :=
  { emptySussuros with
    peers := [("u2", 0)],
    peerHeap := [(0, { initiator := false, connected := true, destroyed := false,
                       signaled := [], sent := [], attached := [] })],
    nextPeerId := 1,
    remoteStreams := [("u2", { tracks := [3] })],
    trackHeap := [(3, { enabled := true, stopped := false })] }

/-- C9 amended witness: the buttonless session makes the handler throw,
with the inbound track stopped but the peers entry still present. -/
theorem c9_amended_witness :
    socketHandler envDefault buttonlessState (Request.peerClose "me") "u2" = .error
      { buttonlessState with
        remoteStreams := [],
        trackHeap := [(3, { enabled := true, stopped := true })] } :=
  c9_amended envDefault buttonlessState "u2" rfl

-- ===== C10 =====

/-- C10: send transmits over the data channel only when a session exists
whose transport reports connected; in every other case it is a silent
no-op returning the state unchanged (nothing queued, nothing thrown). -/
theorem c10_send (s : Sussuros) (userId : String) (data : Nat) :
    (peerConnected s userId = false → send s userId data = s) ∧
    (∀ pid p, mapGet s.peers userId = some pid → heapGet s.peerHeap pid = some p →
      p.connected = true →
      send s userId data =
        { s with peerHeap := heapSet s.peerHeap pid { p with sent := p.sent ++ [data] } }) := by
  constructor
  · intro h; simp [send, h]
  · intro pid p hp hq hc
    have hpc : peerConnected s userId = true := by simp [peerConnected, hp, hq, hc]
    simp [send, hpc, hp, hq]

/-- C10 witness: sending with no session is the identity; sending on the
connected example session appends the payload to that transport. -/
theorem c10_witness :
    send emptySussuros "u1" 5 = emptySussuros ∧
    send exampleState "u1" 5 =
      { exampleState with
        peerHeap := [(0, { initiator := true, connected := true, destroyed := false,
                           signaled := [], sent := [5], attached := [] })] } :=
  ⟨(c10_send emptySussuros "u1" 5).1 rfl,
   (c10_send exampleState "u1" 5).2 0
     { initiator := true, connected := true, destroyed := false,
       signaled := [], sent := [], attached := [] }
     rfl rfl rfl⟩
